import Mathlib

/-!
Verification of the vehicle-listings dashboard (`src/app.py`) against its
specification.  The development shallowly embeds the two core pieces —
the dataset loader/validator (`load_data`, app.py lines 17-40) and the
filter pipeline (app.py lines 52-91) — as pure Lean functions over lists.

Numeric dataframe cells are modelled as rationals (`ℚ`), matching the
float64 columns produced by `pd.to_numeric`.  A raw cell is either a value
that numeric coercion accepts (`RawCell.num`) or one it turns into NaN
(`RawCell.nonNumeric`: a missing cell or an unparsable string).  Rows that
pandas drops are those with a NaN in one of the three required columns.
Python's `int()` on a float truncates toward zero and raises `ValueError`
on NaN; it is modelled by `pyTrunc` / `PyInt.valueError`.
-/

/-- A raw cell of one of the numeric source columns, as seen by
`pd.to_numeric(..., errors='coerce')`: either a numeric value (or a string
that parses as one), or content that coerces to NaN (missing cell or
unparsable string). -/
inductive RawCell where
  | num (q : ℚ)
  | nonNumeric
  deriving DecidableEq, Repr

/-- Model of `pd.to_numeric(cell, errors='coerce')` (app.py line 31): a cell that
fails coercion becomes missing (`none`), it never raises. -/
def toNumericCoerce : RawCell → Option ℚ
  | RawCell.num q => some q
  | RawCell.nonNumeric => none

/-- One row of the raw source table.  `fuel` / `condition` are optional
passthrough columns; their values are only meaningful when the table's
schema flags say the column exists. -/
structure RawRow where
  model_year : RawCell
  odometer : RawCell
  price : RawCell
  fuel : String
  condition : String
  deriving DecidableEq, Repr

/-- The raw source table: which columns are present, plus the rows. -/
structure RawTable where
  hasModelYear : Bool
  hasOdometer : Bool
  hasPrice : Bool
  hasFuel : Bool
  hasCondition : Bool
  rows : List RawRow
  deriving DecidableEq, Repr

/-- A validated vehicle record: the three required numeric fields are
present (post-coercion floats, hence `ℚ`), plus the passthrough strings. -/
structure VehicleRecord where
  model_year : ℚ
  odometer : ℚ
  price : ℚ
  fuel : String
  condition : String
  deriving DecidableEq, Repr

/-- The validated dataset returned by the loader: the surviving rows plus
the schema capabilities consulted by the filter pipeline (app.py lines
61, 69, 79, 82). -/
structure Dataset where
  hasFuel : Bool
  hasCondition : Bool
  rows : List VehicleRecord
  deriving DecidableEq, Repr

/-- Row-wise effect of the column-wise coercion loop (app.py lines 28-31)
followed by `dropna(subset=['model_year','odometer','price'])` (line 33):
the row survives iff all three required cells coerce, and survives
unchanged (no repair). -/
def coerceRow (r : RawRow) : Option VehicleRecord :=
  match toNumericCoerce r.model_year, toNumericCoerce r.odometer,
        toNumericCoerce r.price with
  | some y, some o, some p =>
      some { model_year := y, odometer := o, price := p,
             fuel := r.fuel, condition := r.condition }
  | _, _, _ => none

/-- Result of `load_data` (app.py lines 17-40).  `errSourceNotFound` is the
`FileNotFoundError` branch (line 35), `errSchema` the missing
`model_year` branch (lines 23-25), `errLoadFailure` the generic
`except Exception` branch (lines 38-40).  Every error branch calls
`st.error` and returns `None`: no dataset accompanies a failure. -/
inductive LoadResult where
  | ok (d : Dataset)
  | errSourceNotFound
  | errSchema
  | errLoadFailure
  deriving DecidableEq, Repr

/-- Embedding of `load_data` (app.py lines 17-40), with the source read abstracted to an
`Option RawTable` (`none` = `FileNotFoundError`).  The `model_year`
presence check comes first (line 23).  The coercion loop (lines 29-31)
only touches columns that exist, so when `odometer` or `price` is absent
the subsequent `dropna(subset=[...])` (line 33) raises `KeyError`, which
the generic `except Exception` handler turns into the detailed error
message and `None` — modelled as `errLoadFailure`. -/
def load_data (source : Option RawTable) : LoadResult :=
  match source with
  | none => LoadResult.errSourceNotFound
  | some df =>
    if !df.hasModelYear then LoadResult.errSchema
    else if df.hasOdometer && df.hasPrice then
      LoadResult.ok { hasFuel := df.hasFuel, hasCondition := df.hasCondition,
                      rows := df.rows.filterMap coerceRow }
    else LoadResult.errLoadFailure

/-- A required-columns row is dropped iff at least one of its three
required cells fails numeric coercion (the union of the three per-column
failures, not their sum). -/
def badRow (r : RawRow) : Bool :=
  (toNumericCoerce r.model_year).isNone || (toNumericCoerce r.odometer).isNone
    || (toNumericCoerce r.price).isNone

/-- The user-selected constraints: the slider's year range (inclusive; the
slider hands back numbers compared against the float column, hence `ℚ`)
and the two multiselect sets. -/
structure FilterSpec where
  yearMin : ℚ
  yearMax : ℚ
  allowedFuels : List String
  allowedConditions : List String
  deriving DecidableEq, Repr

/-- The filter pipeline (app.py lines 77-83): `between` with inclusive
bounds, then `isin(selected_fuels)` guarded by `'fuel' in df.columns`,
then `isin(selected_conditions)` guarded by `'condition' in df.columns`.
Each step is a boolean-mask selection producing a new frame. -/
def applyFilter (df : Dataset) (s : FilterSpec) : Dataset :=
  let filtered1 : Dataset :=
    { df with rows := df.rows.filter (fun r =>
        decide (s.yearMin ≤ r.model_year) && decide (r.model_year ≤ s.yearMax)) }
  let filtered2 : Dataset :=
    if df.hasFuel then
      { filtered1 with rows := filtered1.rows.filter (fun r =>
          decide (r.fuel ∈ s.allowedFuels)) }
    else filtered1
  let filtered3 : Dataset :=
    if df.hasCondition then
      { filtered2 with rows := filtered2.rows.filter (fun r =>
          decide (r.condition ∈ s.allowedConditions)) }
    else filtered2
  filtered3

/-- The FilteredView membership predicate exactly as the specification
words it: year within the inclusive range, AND (no fuel column OR fuel
allowed), AND (no condition column OR condition allowed). -/
def specPred (df : Dataset) (s : FilterSpec) (r : VehicleRecord) : Bool :=
  (decide (s.yearMin ≤ r.model_year) && decide (r.model_year ≤ s.yearMax))
    && (!df.hasFuel || decide (r.fuel ∈ s.allowedFuels))
    && (!df.hasCondition || decide (r.condition ∈ s.allowedConditions))

/-- Minimum of a list of rationals (pandas `Series.min`; the `[]` default
is never consulted under the non-emptiness hypotheses used below). -/
def listMinQ : List ℚ → ℚ
  | [] => 0
  | x :: xs => xs.foldl min x

/-- Maximum of a list of rationals (pandas `Series.max`). -/
def listMaxQ : List ℚ → ℚ
  | [] => 0
  | x :: xs => xs.foldl max x

/-- Model of `df["model_year"].min()`. -/
def minYearQ (d : Dataset) : ℚ := listMinQ (d.rows.map VehicleRecord.model_year)

/-- Model of `df["model_year"].max()`. -/
def maxYearQ (d : Dataset) : ℚ := listMaxQ (d.rows.map VehicleRecord.model_year)

/-- Python `int()` applied to a (non-NaN) float: truncation toward zero. -/
def pyTrunc (q : ℚ) : Int :=
  q.num.tdiv q.den

/-- Embedding of `min_year = int(df["model_year"].min())` (app.py line 52). -/
def min_year (d : Dataset) : Int := pyTrunc (minYearQ d)

/-- Embedding of `max_year = int(df["model_year"].max())` (app.py line 53). -/
def max_year (d : Dataset) : Int := pyTrunc (maxYearQ d)

/-- The mean of a numeric column: NaN (`none`) on an empty column,
otherwise the arithmetic mean (pandas `Series.mean`). -/
def seriesMean (xs : List ℚ) : Option ℚ :=
  if xs.isEmpty then none else some (xs.sum / (xs.length : ℚ))

/-- Result of Python `int()` applied to a float that may be NaN:
`int(NaN)` raises `ValueError`. -/
inductive PyInt where
  | val (n : Int)
  | valueError
  deriving DecidableEq, Repr

/-- Python int() applied to an optional (possibly-NaN) float. -/
def pyIntOfMean : Option ℚ → PyInt
  | none => PyInt.valueError
  | some q => PyInt.val (pyTrunc q)

/-- Embedding of `len(filtered_df)` (app.py line 88). -/
def metricVehicles (v : Dataset) : Nat := v.rows.length

/-- Embedding of `int(filtered_df["model_year"].mean())` (app.py line 89).  On an empty
view the mean is NaN and `int` raises `ValueError` (`PyInt.valueError`). -/
def metricMeanYear (v : Dataset) : PyInt :=
  pyIntOfMean (seriesMean (v.rows.map VehicleRecord.model_year))

/-- Embedding of `filtered_df['price'].mean()` (app.py line 90).  The f-string format
`:,.0f` renders NaN as the text "nan" without raising, so `none` here is
an absent/NaN display, not a crash. -/
def metricMeanPrice (v : Dataset) : Option ℚ :=
  seriesMean (v.rows.map VehicleRecord.price)

/-- Embedding of `filtered_df['odometer'].mean()` (app.py line 91), same formatting
behaviour as the price metric. -/
def metricMeanOdometer (v : Dataset) : Option ℚ :=
  seriesMean (v.rows.map VehicleRecord.odometer)

/-- The two dataframe variables live in the script's state: `df` from the
loader and `filtered_df` derived from it (app.py lines 42, 77-83). -/
structure AppState where
  df : Dataset
  filtered_df : Dataset
  deriving DecidableEq, Repr

/-- Lines 77-83 as a state transformation: they assign `filtered_df` from
a boolean-mask selection over `df`; no statement writes to `df`. -/
def applyFilterStep (st : AppState) (s : FilterSpec) : AppState :=
  { st with filtered_df := applyFilter st.df s }

/-! ## Concrete instances used by witnesses and counterexamples -/

/-- A source table lacking the `model_year` column. -/
def tblC2 : RawTable :=
  { hasModelYear := false, hasOdometer := true, hasPrice := true,
    hasFuel := true, hasCondition := true,
    rows := [{ model_year := RawCell.nonNumeric, odometer := RawCell.num 50000,
               price := RawCell.num 10000, fuel := "gas", condition := "good" }] }

/-- A source table with all three required columns and three rows: one
fully parsable, one with an unparsable odometer, one with both the year
and the price unparsable (so the union count is 2, not 3). -/
def tblC3 : RawTable :=
  { hasModelYear := true, hasOdometer := true, hasPrice := true,
    hasFuel := true, hasCondition := false,
    rows := [{ model_year := RawCell.num 2015, odometer := RawCell.num 50000,
               price := RawCell.num 10000, fuel := "gas", condition := "" },
             { model_year := RawCell.num 2018, odometer := RawCell.nonNumeric,
               price := RawCell.num 18000, fuel := "diesel", condition := "" },
             { model_year := RawCell.nonNumeric, odometer := RawCell.num 1,
               price := RawCell.nonNumeric, fuel := "gas", condition := "" }] }

/-- A source table that has `model_year` but lacks `odometer`. -/
def tblC10 : RawTable :=
  { hasModelYear := true, hasOdometer := false, hasPrice := true,
    hasFuel := false, hasCondition := false,
    rows := [{ model_year := RawCell.num 2015, odometer := RawCell.nonNumeric,
               price := RawCell.num 9000, fuel := "", condition := "" }] }

/-- A one-record dataset with fuel and condition columns present. -/
def dsC1 : Dataset :=
  { hasFuel := true, hasCondition := true,
    rows := [{ model_year := 2015, odometer := 50000, price := 10000,
               fuel := "gas", condition := "good" }] }

/-- A FilterSpec whose fuel selection is empty, so the filtered view of
`dsC1` is empty. -/
def specC1 : FilterSpec :=
  { yearMin := 2015, yearMax := 2015, allowedFuels := [],
    allowedConditions := ["good"] }

/-- The worked example dataset from the specification. -/
def dsC5 : Dataset :=
  { hasFuel := true, hasCondition := true,
    rows := [{ model_year := 2015, odometer := 50000, price := 10000,
               fuel := "gas", condition := "good" },
             { model_year := 2018, odometer := 20000, price := 18000,
               fuel := "diesel", condition := "good" }] }

/-- The full-range, full-selection FilterSpec for `dsC5`. -/
def specC5 : FilterSpec :=
  { yearMin := 2015, yearMax := 2018, allowedFuels := ["gas", "diesel"],
    allowedConditions := ["good"] }

/-- A dataset whose only `model_year` is the non-integral float 2015.5
(a value `pd.to_numeric` happily produces from the text "2015.5"). -/
def dsFrac : Dataset :=
  { hasFuel := false, hasCondition := false,
    rows := [{ model_year := mkRat 4031 2, odometer := 100, price := 5000,
               fuel := "", condition := "" }] }

/-- A two-record dataset with integral model years. -/
def dsC6 : Dataset :=
  { hasFuel := false, hasCondition := false,
    rows := [{ model_year := 2012, odometer := 1, price := 2,
               fuel := "", condition := "" },
             { model_year := 2019, odometer := 3, price := 4,
               fuel := "", condition := "" }] }

/-- A one-record dataset with a fuel column. -/
def dsC7 : Dataset :=
  { hasFuel := true, hasCondition := false,
    rows := [{ model_year := 2012, odometer := 30000, price := 7000,
               fuel := "electric", condition := "" }] }

/-- A FilterSpec with an empty fuel selection. -/
def specC7 : FilterSpec :=
  { yearMin := 2000, yearMax := 2020, allowedFuels := [],
    allowedConditions := [] }

/-! ## Helper lemmas -/

lemma foldl_min_le (l : List ℚ) : ∀ a x : ℚ, x ∈ a :: l → l.foldl min a ≤ x := by
  induction l with
  | nil =>
    intro a x hx
    rw [List.mem_singleton] at hx
    simp [hx]
  | cons b t ih =>
    intro a x hx
    simp only [List.foldl_cons]
    have hh : t.foldl min (min a b) ≤ min a b :=
      ih (min a b) (min a b) (List.mem_cons_self _ _)
    rcases List.mem_cons.mp hx with rfl | hx'
    · exact le_trans hh (min_le_left _ _)
    · rcases List.mem_cons.mp hx' with rfl | hx''
      · exact le_trans hh (min_le_right _ _)
      · exact ih (min a b) x (List.mem_cons_of_mem _ hx'')

lemma le_foldl_max (l : List ℚ) : ∀ a x : ℚ, x ∈ a :: l → x ≤ l.foldl max a := by
  induction l with
  | nil =>
    intro a x hx
    rw [List.mem_singleton] at hx
    simp [hx]
  | cons b t ih =>
    intro a x hx
    simp only [List.foldl_cons]
    have hh : max a b ≤ t.foldl max (max a b) :=
      ih (max a b) (max a b) (List.mem_cons_self _ _)
    rcases List.mem_cons.mp hx with rfl | hx'
    · exact le_trans (le_max_left _ _) hh
    · rcases List.mem_cons.mp hx' with rfl | hx''
      · exact le_trans (le_max_right _ _) hh
      · exact ih (max a b) x (List.mem_cons_of_mem _ hx'')

lemma foldl_min_mem (l : List ℚ) (a : ℚ) : l.foldl min a ∈ a :: l := by
  induction l generalizing a with
  | nil => simp
  | cons b t ih =>
    simp only [List.foldl_cons]
    rcases List.mem_cons.mp (ih (min a b)) with h | h
    · rw [h]
      rcases min_choice a b with h' | h' <;> rw [h']
      · exact List.mem_cons_self _ _
      · exact List.mem_cons_of_mem _ (List.mem_cons_self _ _)
    · exact List.mem_cons_of_mem _ (List.mem_cons_of_mem _ h)

lemma foldl_max_mem (l : List ℚ) (a : ℚ) : l.foldl max a ∈ a :: l := by
  induction l generalizing a with
  | nil => simp
  | cons b t ih =>
    simp only [List.foldl_cons]
    rcases List.mem_cons.mp (ih (max a b)) with h | h
    · rw [h]
      rcases max_choice a b with h' | h' <;> rw [h']
      · exact List.mem_cons_self _ _
      · exact List.mem_cons_of_mem _ (List.mem_cons_self _ _)
    · exact List.mem_cons_of_mem _ (List.mem_cons_of_mem _ h)

lemma listMinQ_le {l : List ℚ} {x : ℚ} (hx : x ∈ l) : listMinQ l ≤ x := by
  cases l with
  | nil => cases hx
  | cons a t => exact foldl_min_le t a x hx

lemma le_listMaxQ {l : List ℚ} {x : ℚ} (hx : x ∈ l) : x ≤ listMaxQ l := by
  cases l with
  | nil => cases hx
  | cons a t => exact le_foldl_max t a x hx

lemma listMinQ_mem {l : List ℚ} (h : l ≠ []) : listMinQ l ∈ l := by
  cases l with
  | nil => exact absurd rfl h
  | cons a t => exact foldl_min_mem t a

lemma listMaxQ_mem {l : List ℚ} (h : l ≠ []) : listMaxQ l ∈ l := by
  cases l with
  | nil => exact absurd rfl h
  | cons a t => exact foldl_max_mem t a

lemma pyTrunc_of_den_one {q : ℚ} (h : q.den = 1) : (pyTrunc q : ℚ) = q := by
  unfold pyTrunc
  rw [h, Nat.cast_one, Int.tdiv_one]
  exact (Rat.den_eq_one_iff q).mp h

lemma length_filterMap_coerceRow (l : List RawRow) :
    (l.filterMap coerceRow).length + l.countP badRow = l.length := by
  induction l with
  | nil => simp
  | cons r t ih =>
    rcases r with ⟨my, od, pr, fu, co⟩
    cases my <;> cases od <;> cases pr <;>
      simp [List.filterMap_cons, List.countP_cons, coerceRow, badRow,
        toNumericCoerce] <;>
      omega

lemma coerceRow_eq_some {r : RawRow} {v : VehicleRecord}
    (h : coerceRow r = some v) :
    toNumericCoerce r.model_year = some v.model_year ∧
    toNumericCoerce r.odometer = some v.odometer ∧
    toNumericCoerce r.price = some v.price ∧
    r.fuel = v.fuel ∧ r.condition = v.condition := by
  rcases r with ⟨my, od, pr, fu, co⟩
  cases my <;> cases od <;> cases pr <;>
    simp only [coerceRow, toNumericCoerce, Option.some.injEq,
      reduceCtorEq] at h <;>
    subst h <;> simp [toNumericCoerce]

lemma Dataset.ext' {a b : Dataset} (h1 : a.hasFuel = b.hasFuel)
    (h2 : a.hasCondition = b.hasCondition) (h3 : a.rows = b.rows) : a = b := by
  cases a
  cases b
  simp_all

lemma applyFilter_hasFuel (df : Dataset) (s : FilterSpec) :
    (applyFilter df s).hasFuel = df.hasFuel := by
  rcases df with ⟨hf, hc, rows⟩
  cases hf <;> cases hc <;> simp [applyFilter]

lemma applyFilter_hasCondition (df : Dataset) (s : FilterSpec) :
    (applyFilter df s).hasCondition = df.hasCondition := by
  rcases df with ⟨hf, hc, rows⟩
  cases hf <;> cases hc <;> simp [applyFilter]

lemma applyFilter_rows_eq (df : Dataset) (s : FilterSpec) :
    (applyFilter df s).rows = df.rows.filter (specPred df s) := by
  rcases df with ⟨hf, hc, rows⟩
  cases hf <;> cases hc <;>
    simp only [applyFilter, Bool.false_eq_true, if_true, if_false,
      eq_self_iff_true, ite_true, ite_false, List.filter_filter] <;>
    exact List.filter_congr (fun r _ => by
      simp only [specPred, Bool.not_true, Bool.not_false, Bool.false_or,
        Bool.true_or, Bool.and_true]
      try
        cases decide (s.yearMin ≤ r.model_year) <;>
        cases decide (r.model_year ≤ s.yearMax) <;>
        cases decide (r.fuel ∈ s.allowedFuels) <;>
        cases decide (r.condition ∈ s.allowedConditions) <;> rfl)

/-! ## Claim theorems -/

/-- Claim C2: for every source table in which the `model_year` column is
absent, `load_data` returns the SchemaError failure and no dataset is
produced. -/
theorem C2_missing_model_year_is_schema_error (t : RawTable)
    (hm : t.hasModelYear = false) :
    load_data (some t) = LoadResult.errSchema ∧
    ∀ d : Dataset, load_data (some t) ≠ LoadResult.ok d := by
  constructor
  · simp [load_data, hm]
  · intro d
    simp [load_data, hm]

/-- Witness for C2 at a concrete table lacking `model_year`. -/
theorem C2_witness : load_data (some tblC2) = LoadResult.errSchema :=
  (C2_missing_model_year_is_schema_error tblC2 rfl).1

/-- Claim C3: for every source table containing the three required
columns, loading succeeds and the surviving row count equals the input
row count minus the number of rows with at least one unparsable required
cell (the union across the three fields), and every surviving record is
the unrepaired coercion of an input row. -/
theorem C3_drop_unparsable_rows (t : RawTable) (hm : t.hasModelYear = true)
    (ho : t.hasOdometer = true) (hp : t.hasPrice = true) :
    ∃ d : Dataset, load_data (some t) = LoadResult.ok d ∧
      d.rows.length + t.rows.countP badRow = t.rows.length ∧
      d.rows.length = t.rows.length - t.rows.countP badRow ∧
      ∀ v ∈ d.rows, ∃ r ∈ t.rows,
        toNumericCoerce r.model_year = some v.model_year ∧
        toNumericCoerce r.odometer = some v.odometer ∧
        toNumericCoerce r.price = some v.price ∧
        r.fuel = v.fuel ∧ r.condition = v.condition := by
  refine ⟨{ hasFuel := t.hasFuel, hasCondition := t.hasCondition,
            rows := t.rows.filterMap coerceRow }, ?_, ?_, ?_, ?_⟩
  · simp [load_data, hm, ho, hp]
  · exact length_filterMap_coerceRow t.rows
  · have h := length_filterMap_coerceRow t.rows
    dsimp only
    omega
  · intro v hv
    rcases List.mem_filterMap.mp hv with ⟨r, hr, hcr⟩
    exact ⟨r, hr, coerceRow_eq_some hcr⟩

/-- Witness for C3 at a concrete three-row table (one clean row, one bad
odometer, one row bad in two fields at once). -/
theorem C3_witness :
    ∃ d : Dataset, load_data (some tblC3) = LoadResult.ok d ∧
      d.rows.length + tblC3.rows.countP badRow = tblC3.rows.length ∧
      d.rows.length = tblC3.rows.length - tblC3.rows.countP badRow ∧
      ∀ v ∈ d.rows, ∃ r ∈ tblC3.rows,
        toNumericCoerce r.model_year = some v.model_year ∧
        toNumericCoerce r.odometer = some v.odometer ∧
        toNumericCoerce r.price = some v.price ∧
        r.fuel = v.fuel ∧ r.condition = v.condition :=
  C3_drop_unparsable_rows tblC3 rfl rfl rfl

/-- Claim C4: for every Dataset and FilterSpec, the sequentially applied
filter pipeline returns exactly the subsequence of records satisfying
the specification's conjunction (inclusive year range, and each
categorical filter a no-op when its column is absent). -/
theorem C4_filter_equals_spec_conjunction (d : Dataset) (s : FilterSpec) :
    (applyFilter d s).rows = d.rows.filter (specPred d s) :=
  applyFilter_rows_eq d s

/-- Claim C7: for every Dataset with a fuel column and every FilterSpec
with an empty fuel selection, the filtered view is empty (no implicit
select-all). -/
theorem C7_empty_fuel_selection_yields_empty_view (d : Dataset)
    (s : FilterSpec) (hf : d.hasFuel = true) (he : s.allowedFuels = []) :
    (applyFilter d s).rows = [] := by
  rw [applyFilter_rows_eq]
  apply List.filter_eq_nil_iff.mpr
  intro r hr
  simp [specPred, hf, he]

/-- Witness for C7 at a concrete one-record dataset. -/
theorem C7_witness : (applyFilter dsC7 specC7).rows = [] :=
  C7_empty_fuel_selection_yields_empty_view dsC7 specC7 rfl rfl

/-- Claim C8: for every Dataset and FilterSpec, filtering is idempotent:
applying the same spec to the already-filtered view returns the same
view. -/
theorem C8_filter_idempotent (d : Dataset) (s : FilterSpec) :
    applyFilter (applyFilter d s) s = applyFilter d s := by
  apply Dataset.ext'
  · rw [applyFilter_hasFuel]
  · rw [applyFilter_hasCondition]
  · rw [applyFilter_rows_eq (applyFilter d s) s, applyFilter_rows_eq d s]
    have hpred : specPred (applyFilter d s) s = specPred d s := by
      funext r
      simp [specPred, applyFilter_hasFuel, applyFilter_hasCondition]
    rw [hpred, List.filter_filter]
    exact List.filter_congr (fun a _ => Bool.and_self _)

/-- Claim C9: computing the filtered view never mutates the loaded
dataset: the state transformation of app.py lines 77-83 writes only
`filtered_df`, leaving `df` (records and fields) unchanged. -/
theorem C9_filter_does_not_mutate_dataset (st : AppState) (s : FilterSpec) :
    (applyFilterStep st s).df = st.df ∧
    (applyFilterStep st s).df.rows = st.df.rows :=
  ⟨rfl, rfl⟩

/-- Claim C10: for every source table that contains `model_year` but
lacks `odometer` or `price`, `load_data` does not return SchemaError:
the failure surfaces through the generic handler as the detailed
LoadFailure message, and no dataset is returned. -/
theorem C10_missing_other_required_column_is_load_failure (t : RawTable)
    (hm : t.hasModelYear = true)
    (h : t.hasOdometer = false ∨ t.hasPrice = false) :
    load_data (some t) = LoadResult.errLoadFailure ∧
    load_data (some t) ≠ LoadResult.errSchema ∧
    ∀ d : Dataset, load_data (some t) ≠ LoadResult.ok d := by
  have hb : (t.hasOdometer && t.hasPrice) = false := by
    rcases h with h | h <;> simp [h]
  refine ⟨?_, ?_, ?_⟩ <;> simp [load_data, hm, hb]

/-- Witness for C10 at a concrete table lacking `odometer`. -/
theorem C10_witness : load_data (some tblC10) = LoadResult.errLoadFailure :=
  (C10_missing_other_required_column_is_load_failure tblC10 rfl (Or.inl rfl)).1

/-- Claim C1 (refuted, code bug): on the empty FilteredView obtained by
deselecting every fuel, the count metric is 0 and the price/odometer
means are NaN (`none`, rendered by the f-strings as the text "nan"
without raising), but the mean-year metric `int(mean)` hits `int(NaN)`
and raises `ValueError` (`PyInt.valueError`): the metrics block crashes
instead of reporting the mean year as absent/NaN. -/
theorem C1_empty_view_mean_year_crashes :
    metricVehicles (applyFilter dsC1 specC1) = 0 ∧
    metricMeanYear (applyFilter dsC1 specC1) = PyInt.valueError ∧
    metricMeanPrice (applyFilter dsC1 specC1) = none ∧
    metricMeanOdometer (applyFilter dsC1 specC1) = none := by
  decide

/-- Claim C5: for every non-empty Dataset, filtering with the year range
set to the dataset's exact minimum and maximum model year and the
allowed sets equal to all distinct values present returns the dataset
itself. -/
theorem C5_full_range_full_selection_identity (d : Dataset) (s : FilterSpec)
    (hne : d.rows ≠ [])
    (hmin : s.yearMin = minYearQ d) (hmax : s.yearMax = maxYearQ d)
    (hfu : s.allowedFuels = (d.rows.map VehicleRecord.fuel).dedup)
    (hco : s.allowedConditions = (d.rows.map VehicleRecord.condition).dedup) :
    applyFilter d s = d := by
  apply Dataset.ext' (applyFilter_hasFuel d s) (applyFilter_hasCondition d s)
  rw [applyFilter_rows_eq]
  apply List.filter_eq_self.mpr
  intro r hr
  have h1 : s.yearMin ≤ r.model_year := by
    rw [hmin]
    exact listMinQ_le (List.mem_map_of_mem VehicleRecord.model_year hr)
  have h2 : r.model_year ≤ s.yearMax := by
    rw [hmax]
    exact le_listMaxQ (List.mem_map_of_mem VehicleRecord.model_year hr)
  have h3 : r.fuel ∈ s.allowedFuels := by
    rw [hfu]
    exact List.mem_dedup.mpr (List.mem_map_of_mem VehicleRecord.fuel hr)
  have h4 : r.condition ∈ s.allowedConditions := by
    rw [hco]
    exact List.mem_dedup.mpr (List.mem_map_of_mem VehicleRecord.condition hr)
  simp [specPred, h1, h2, h3, h4]

/-- Witness for C5 at the specification's worked example dataset. -/
theorem C5_witness : applyFilter dsC5 specC5 = dsC5 :=
  C5_full_range_full_selection_identity dsC5 specC5 (by decide) (by decide)
    (by decide) (by decide) (by decide)

/-- Claim C6 counterexample: for the dataset whose only model year is the
float 2015.5, the derived slider bounds `int(min)` / `int(max)` are both
2015, the record's model year lies outside the derived closed interval,
and selecting the full derived range excludes the record — the full
dataset range is not representable. -/
theorem C6_counterexample :
    dsFrac.rows ≠ [] ∧
    min_year dsFrac = 2015 ∧ max_year dsFrac = 2015 ∧
    ¬ (∀ r ∈ dsFrac.rows,
        (2015 : ℚ) ≤ r.model_year ∧ r.model_year ≤ (2015 : ℚ)) ∧
    (applyFilter dsFrac
      { yearMin := 2015, yearMax := 2015,
        allowedFuels := [], allowedConditions := [] }).rows = [] := by
  decide

/-- Claim C6 as amended: for every non-empty Dataset all of whose model
years are integral (which is what the source column contains in
practice), the derived bounds `int(min)` / `int(max)` contain every
record's model year, so no record is excluded by the year filter at the
full derived range. -/
theorem C6_amended_integral_years_within_derived_bounds (d : Dataset)
    (hne : d.rows ≠ [])
    (hint : ∀ r ∈ d.rows, (VehicleRecord.model_year r).den = 1) :
    ∀ r ∈ d.rows,
      (min_year d : ℚ) ≤ r.model_year ∧ r.model_year ≤ (max_year d : ℚ) := by
  have hmapne : d.rows.map VehicleRecord.model_year ≠ [] := by
    simpa using hne
  rcases List.mem_map.mp (listMinQ_mem hmapne) with ⟨rmin, hrmin, hmineq⟩
  rcases List.mem_map.mp (listMaxQ_mem hmapne) with ⟨rmax, hrmax, hmaxeq⟩
  have hminden : (minYearQ d).den = 1 := by
    rw [minYearQ, ← hmineq]
    exact hint rmin hrmin
  have hmaxden : (maxYearQ d).den = 1 := by
    rw [maxYearQ, ← hmaxeq]
    exact hint rmax hrmax
  have hmincast : (min_year d : ℚ) = minYearQ d := pyTrunc_of_den_one hminden
  have hmaxcast : (max_year d : ℚ) = maxYearQ d := pyTrunc_of_den_one hmaxden
  intro r hr
  constructor
  · rw [hmincast]
    exact listMinQ_le (List.mem_map_of_mem VehicleRecord.model_year hr)
  · rw [hmaxcast]
    exact le_listMaxQ (List.mem_map_of_mem VehicleRecord.model_year hr)

/-- Witness for the amended C6 at a concrete integral-year dataset,
instantiated at its first record. -/
theorem C6_witness :
    (min_year dsC6 : ℚ) ≤ (2012 : ℚ) ∧ (2012 : ℚ) ≤ (max_year dsC6 : ℚ) :=
  C6_amended_integral_years_within_derived_bounds dsC6 (by decide) (by decide)
    { model_year := 2012, odometer := 1, price := 2, fuel := "", condition := "" }
    (by decide)
